import Mathlib

/-!
Shallow embedding of `app/main.py` (the Flask session-lifecycle and
concurrency manager of the WebWhatsapp-Wrapper API server).

Modelling conventions:

* The three global dictionaries `drivers`, `timers`, `semaphores` and the
  per-client cache directories are modelled as association lists inside one
  explicit `AppState` record, threaded through every function.
* A `WhatsAPIDriver` (an external collaborator) is modelled as a record
  carrying the identity of the constructed resource (`uid`, bumped by
  `AppState.nextUid` at each construction), the status it reports, and
  oracle fields describing how its external calls behave (`quitRaises`,
  `getUnreadRaises`, `unread`).  Per the upstream contract,
  `is_logged_in` holds iff `get_status` reports `LoggedIn`.
* A Python `threading.Semaphore()` is modelled by its integer counter
  (initial value 1): `acquire` succeeds iff the counter is positive and
  decrements it, `release` unconditionally increments it.  In a sequential
  model a blocking acquire with any timeout on a counter that is 0 returns
  `False` (there is no other unit to release it during the wait); the
  timeout durations chosen by the source (10 for foreground, 0 for
  background) do not otherwise affect the outcome and are not represented.
* Python exceptions are modelled with `Except String`; an `.error` result
  abandons the local state (the claims proved here never inspect the state
  after an uncaught exception).
* A dictionary entry set to Python `None` (as `kill_clients` and
  `delete_client` do for `timers` and `semaphores`) is modelled as an entry
  that is present with value `none`; a missing key is a missing entry.
-/

/-- Status enumeration of the external `webwhatsapi` driver. -/
inductive WhatsAPIDriverStatus : Type
  | Unknown
  | NotLoggedIn
  | LoggedIn
deriving DecidableEq

/-- One unread message group returned by `Driver.get_unread`; the oracle
field records whether `message_group.chat.send_seen()` raises for it. -/
structure MsgGroup where
  sendSeenRaises : Bool
deriving DecidableEq

/-- The external resource handle (`WhatsAPIDriver`).  `uid` identifies the
constructed resource; the remaining fields are the external oracle for its
calls. -/
structure Driver where
  uid : Nat
  status : WhatsAPIDriverStatus
  quitRaises : Bool
  getUnreadRaises : Bool
  unread : List MsgGroup
deriving DecidableEq

/-- `driver.get_status()` of the external collaborator. -/
def get_status (d : Driver) : WhatsAPIDriverStatus := d.status

/-- `driver.is_logged_in()` of the external collaborator: true iff the
driver's status is `LoggedIn`. -/
def is_logged_in (d : Driver) : Bool := decide (d.status = WhatsAPIDriverStatus.LoggedIn)

/-- A `RepeatedTimer` object (interval plus its `is_running` flag). -/
structure TimerObj where
  interval : Nat
  is_running : Bool
deriving DecidableEq

/-- Association-list lookup keyed on strings (Python `dict[k]` /
`k in dict`). -/
def lookupA {V : Type} : List (String × V) → String → Option V
  | [], _ => none
  | (k, v) :: rest, key => if k = key then some v else lookupA rest key

/-- Association-list store (Python `dict[k] = v`): replaces the first
binding of the key in place, or appends a new binding. -/
def insertA {V : Type} : List (String × V) → String → V → List (String × V)
  | [], key, val => [(key, val)]
  | (k, v) :: rest, key, val =>
    if k = key then (key, val) :: rest else (k, v) :: insertA rest key val

/-- Association-list removal (Python `dict.pop(k)`). -/
def eraseA {V : Type} : List (String × V) → String → List (String × V)
  | [], _ => []
  | (k, v) :: rest, key => if k = key then rest else (k, v) :: eraseA rest key

/-- The global mutable state of `app/main.py`: the `drivers`, `timers` and
`semaphores` dictionaries, the set of per-client cache directories under
`FIREFOX_CACHE_PATH` (represented by client id), the log of resource
handles on which `quit()` has been invoked, and the uid counter used to
give each constructed driver a fresh identity. -/
structure AppState where
  drivers : List (String × Driver)
  timers : List (String × Option TimerObj)
  semaphores : List (String × Option Nat)
  dirs : List String
  quitted : List Nat
  nextUid : Nat
deriving DecidableEq

/-- Python truthiness of the optional `client-id` header: `None` and the
empty string are falsy. -/
def pyTruthy : Option String → Bool
  | none => false
  | some s => decide (s ≠ "")

/-- `init_driver(client_id)`: creates the profile directory if missing and
constructs a fresh `WhatsAPIDriver`.  The status the fresh driver will
report is external, so it is an oracle parameter; its other oracle fields
are benign. -/
def init_driver (client_id : String) (freshStatus : WhatsAPIDriverStatus)
    (s : AppState) : Driver × AppState :=
  let s1 := if s.dirs.contains client_id then s else { s with dirs := client_id :: s.dirs }
  (⟨s1.nextUid, freshStatus, false, false, []⟩,
   { s1 with nextUid := s1.nextUid + 1 })

/-- `init_client(client_id)`: constructs and stores a driver only when the
client has no registry entry, then returns the stored entry. -/
def init_client (client_id : String) (freshStatus : WhatsAPIDriverStatus)
    (s : AppState) : Driver × AppState :=
  match lookupA s.drivers client_id with
  | some d => (d, s)
  | none =>
    let r := init_driver client_id freshStatus s
    (r.1, { r.2 with drivers := insertA r.2.drivers client_id r.1 })

/-- `init_timer(client_id)`: if a truthy timer object exists, `start()` it
(idempotent: it ends up running); otherwise create a `RepeatedTimer(2, ...)`,
which starts immediately. -/
def init_timer (client_id : String) (s : AppState) : AppState :=
  match lookupA s.timers client_id with
  | some (some t) =>
    { s with timers := insertA s.timers client_id (some { t with is_running := true }) }
  | _ =>
    { s with timers := insertA s.timers client_id (some ⟨2, true⟩) }

/-- `acquire_semaphore(client_id, cancel_if_locked)`.  A falsy client id
returns `False` without touching the table.  A missing entry is lazily
populated with a fresh `threading.Semaphore()` (counter 1).  An entry that
was set to Python `None` raises (`None.acquire`).  The `cancel_if_locked`
flag only selects the timeout (0 instead of 10), which does not change the
outcome in this sequential model. -/
def acquire_semaphore : Option String → Bool → AppState →
    Except String (Bool × AppState)
  | none, _, s => .ok (false, s)
  | some cid, _, s =>
    if cid = "" then .ok (false, s)
    else
      match lookupA s.semaphores cid with
      | some none => .error "AttributeError: NoneType has no attribute acquire"
      | some (some n) =>
        if n = 0 then .ok (false, s)
        else .ok (true, { s with semaphores := insertA s.semaphores cid (some (n - 1)) })
      | none =>
        .ok (true, { s with semaphores := insertA s.semaphores cid (some 0) })

/-- `release_semaphore(client_id)`.  A falsy client id returns `False`
(`some false`); otherwise the function returns Python `None` (`none`) and,
when an entry is present, calls `.release()` on it — incrementing the
counter of a real semaphore, or raising when the entry was set to Python
`None`. -/
def release_semaphore : Option String → AppState →
    Except String (Option Bool × AppState)
  | none, s => .ok (some false, s)
  | some cid, s =>
    if cid = "" then .ok (some false, s)
    else
      match lookupA s.semaphores cid with
      | some (some n) =>
        .ok (none, { s with semaphores := insertA s.semaphores cid (some (n + 1)) })
      | some none => .error "AttributeError: NoneType has no attribute release"
      | none => .ok (none, s)

/-- `check_new_messages(client_id)`, the poll callback: stop the timer and
return when the driver is missing or not logged in; otherwise take the lock
non-blockingly (skip the cycle on failure); in the `try` block fetch the
unread groups, mark them seen, and release the lock; swallow any exception
from the `try` block; release the lock once more in the `finally` block. -/
def check_new_messages (client_id : String) (s : AppState) : Except String AppState :=
  let stopTimer : Except String AppState :=
    match lookupA s.timers client_id with
    | some (some t) =>
      .ok { s with timers := insertA s.timers client_id (some { t with is_running := false }) }
    | some none => .error "AttributeError: NoneType has no attribute stop"
    | none => .error "KeyError"
  match lookupA s.drivers client_id with
  | none => stopTimer
  | some d =>
    if is_logged_in d then
      match acquire_semaphore (some client_id) true s with
      | .error e => .error e
      | .ok (false, s1) => .ok s1
      | .ok (true, s1) =>
        let tryState : AppState :=
          if d.getUnreadRaises then s1
          else if d.unread.any (fun g => g.sendSeenRaises) then s1
          else
            match release_semaphore (some client_id) s1 with
            | .ok r => r.2
            | .error _ => s1
        match release_semaphore (some client_id) tryState with
        | .ok r => .ok r.2
        | .error e => .error e
    else stopTimer

/-- The cleanup `try` block shared verbatim by `delete_client` and
`kill_clients`: stop the timer, set the timer entry to `None`, call
`release_semaphore`, set the semaphore entry to `None`; any exception along
the way is swallowed and aborts the rest of the block. -/
def killCleanup (client_id : String) (s : AppState) : AppState :=
  match lookupA s.timers client_id with
  | some (some _) =>
    let s1 := { s with timers := insertA s.timers client_id none }
    match release_semaphore (some client_id) s1 with
    | .ok r => { r.2 with semaphores := insertA r.2.semaphores client_id none }
    | .error _ => s1
  | _ => s

/-- `delete_client(client_id, preserve_cache)`: pop the registry entry and
call `quit()` on it (a failure of `quit` is NOT caught), run the swallowed
cleanup block, and — unless `preserve_cache` — `shutil.rmtree` the cache
directory keyed by `g.client_id` (raising `FileNotFoundError` when it does
not exist). -/
def delete_client (client_id : String) (g_client_id : String)
    (preserve_cache : Bool) (s : AppState) : Except String AppState :=
  let step1 : Except String AppState :=
    match lookupA s.drivers client_id with
    | some d =>
      let s1 := { s with drivers := eraseA s.drivers client_id,
                         quitted := s.quitted ++ [d.uid] }
      if d.quitRaises then .error "WebDriverException" else .ok (killCleanup client_id s1)
    | none => .ok s
  match step1 with
  | .error e => .error e
  | .ok s1 =>
    if preserve_cache then .ok s1
    else if s1.dirs.contains g_client_id then
      .ok { s1 with dirs := s1.dirs.erase g_client_id }
    else .error "FileNotFoundError"

/-- One iteration of the `kill_clients` sweep for the key `c`.  The
condition is `kill_dead and not drivers[client].is_logged_in() or client in
clients` (Python precedence), with `drivers[client]` only evaluated when
`kill_dead` is truthy; on a hit the entry is popped, `quit()` invoked (a
failure propagates) and the swallowed cleanup block runs. -/
def killOne (clients : List String) (killDead : Bool) (c : String)
    (s : AppState) : Except String AppState :=
  let cond : Except String Bool :=
    if killDead then
      match lookupA s.drivers c with
      | none => .error "KeyError"
      | some d => .ok (!is_logged_in d || clients.contains c)
    else .ok (clients.contains c)
  match cond with
  | .error e => .error e
  | .ok false => .ok s
  | .ok true =>
    match lookupA s.drivers c with
    | none => .error "KeyError"
    | some d =>
      let s1 := { s with drivers := eraseA s.drivers c,
                         quitted := s.quitted ++ [d.uid] }
      if d.quitRaises then .error "WebDriverException" else .ok (killCleanup c s1)

/-- The `for client in list(drivers.keys())` loop of `kill_clients`,
iterating over the snapshot of keys taken before the first removal. -/
def killLoop (clients : List String) (killDead : Bool) :
    List String → AppState → Except String AppState
  | [], s => .ok s
  | c :: rest, s =>
    match killOne clients killDead c s with
    | .error e => .error e
    | .ok s1 => killLoop clients killDead rest s1

/-- Python `str.split(",")` (always at least one piece; `"".split(",")`
is `[""]`). -/
def splitCommaAux : List Char → String → List String
  | [], acc => [acc]
  | ch :: rest, acc =>
    if ch = ',' then acc :: splitCommaAux rest "" else splitCommaAux rest (acc.push ch)

/-- Python `s.split(",")`. -/
def pySplitComma (s : String) : List String := splitCommaAux s.data ""

/-- `kill_clients` (route `DELETE /admin/clients`): `clients` is the raw
form field (`None.split` raises when it is absent), `kill_dead` the raw
query argument (truthy only as the strings `"true"` or `"1"`).  The final
`get_active_clients()` response is out of scope; the state it returns is
not. -/
def kill_clients (clients_form : Option String) (kill_dead_arg : Option String)
    (s : AppState) : Except String AppState :=
  match clients_form with
  | none => .error "AttributeError: NoneType has no attribute split"
  | some cf =>
    let clients := pySplitComma cf
    let killDead :=
      match kill_dead_arg with
      | none => false
      | some v => decide (v = "true") || decide (v = "1")
    if !killDead && clients.isEmpty then .ok s
    else killLoop clients killDead (s.drivers.map Prod.fst) s

/-- Outcome of the `before_request` hook: an `abort(code)`, or control
passed to the route handler with the values bound to `g.driver` and
`g.driver_status` (both unset for admin routes). -/
inductive GateOutcome : Type
  | abort : Nat → GateOutcome
  | proceed : Option Driver → Option WhatsAPIDriverStatus → GateOutcome
deriving DecidableEq

/-- The `if API_KEY and auth_key != API_KEY` guard. -/
def apiKeyCheckFails (api_key auth_key : Option String) : Bool :=
  pyTruthy api_key && decide (auth_key ≠ api_key)

/-- `before_request`: authenticate, require a client id for non-admin
routes, acquire the client's semaphore with the blocking timeout — the
boolean result is discarded, exactly as at source line 380 — then for
non-admin routes ensure a registry entry, query its status, run the
"self-healing" branch when the status is neither `NotLoggedIn` nor
`LoggedIn` (note: `init_client` finds the existing entry and returns it,
and the re-query is `g.driver.get_status()` on the old binding), and
finally `init_timer`. -/
def before_request (api_key auth_key client_id : Option String)
    (rule_parent : String) (freshStatus : WhatsAPIDriverStatus)
    (s : AppState) : Except String (GateOutcome × AppState) :=
  if apiKeyCheckFails api_key auth_key then .ok (.abort 401, s)
  else if !pyTruthy client_id && decide (rule_parent ≠ "admin") then .ok (.abort 400, s)
  else
    match acquire_semaphore client_id false s with
    | .error e => .error e
    | .ok r =>
      let s1 := r.2
      if rule_parent = "admin" then .ok (.proceed none none, s1)
      else
        match client_id with
        | none => .ok (.proceed none none, s1)
        | some cid =>
          let s2 := if (lookupA s1.drivers cid).isSome then s1
                    else (init_client cid freshStatus s1).2
          match lookupA s2.drivers cid with
          | none =>
            -- g.driver is None: status stays Unknown, the healing branch
            -- runs and `None.get_status()` raises (unreachable here)
            .error "AttributeError: NoneType has no attribute get_status"
          | some d =>
            let st0 := get_status d
            if decide (st0 = WhatsAPIDriverStatus.NotLoggedIn) ||
               decide (st0 = WhatsAPIDriverStatus.LoggedIn) then
              .ok (.proceed (some d) (some st0), init_timer cid s2)
            else
              let r2 := init_client cid freshStatus s2
              let s4 := { r2.2 with drivers := insertA r2.2.drivers cid r2.1 }
              -- `g.driver_status = g.driver.get_status()`: re-queried on
              -- the OLD `g.driver` binding, not on `drivers[g.client_id]`
              let st1 := get_status d
              .ok (.proceed (some d) (some st1), init_timer cid s4)

/-- `after_request`: release the semaphore when `g.client_id` is set and
truthy. -/
def after_request (g_client_id : Option String) (s : AppState) :
    Except String AppState :=
  if pyTruthy g_client_id then
    match release_semaphore g_client_id s with
    | .ok r => .ok r.2
    | .error e => .error e
  else .ok s

/-- Two back-to-back foreground lock acquisitions with no intervening
release, returning both results. -/
def twoAcquires (cid : String) (s : AppState) : Except String (Bool × Bool) :=
  match acquire_semaphore (some cid) false s with
  | .error e => .error e
  | .ok (b1, s1) =>
    match acquire_semaphore (some cid) false s1 with
    | .error e => .error e
    | .ok (b2, _) => .ok (b1, b2)

/-- Decidable check that a timer-table slot holds a live (non-`None`)
timer object. -/
def isLiveTimer : Option (Option TimerObj) → Bool
  | some (some _) => true
  | _ => false


/-! ### Concrete states used by witnesses and counterexamples -/

/-- A logged-in driver with benign external behaviour. -/
def dLoggedIn : Driver := ⟨0, .LoggedIn, false, false, []⟩

/-- A not-logged-in driver with benign external behaviour. -/
def dNotLoggedIn : Driver := ⟨1, .NotLoggedIn, false, false, []⟩

/-- A driver whose status query reports `Unknown` (externally killed). -/
def dUnknown : Driver := ⟨0, .Unknown, false, false, []⟩

/-- A driver whose `quit()` raises. -/
def dQuitFails : Driver := ⟨0, .LoggedIn, true, false, []⟩

/-- Two registered clients: `A` logged in, `B` not logged in (the spec's
kill-dead example). -/
def stateAB : AppState :=
  ⟨[("A", dLoggedIn), ("B", dNotLoggedIn)],
   [("A", some ⟨2, true⟩), ("B", some ⟨2, true⟩)],
   [("A", some 1), ("B", some 1)], [], [], 2⟩

/-- One logged-in client `c` with a live timer and a free semaphore. -/
def pollState : AppState :=
  ⟨[("c", dLoggedIn)], [("c", some ⟨2, true⟩)], [("c", some 1)], [], [], 1⟩

/-- The state after one successful poll cycle on `pollState`: the body
release and the cleanup release have driven the counter to 2. -/
def pollStatePost : AppState :=
  ⟨[("c", dLoggedIn)], [("c", some ⟨2, true⟩)], [("c", some 2)], [], [], 1⟩

/-- Client `c` registered and logged in while its semaphore is held by
some other execution unit (counter 0). -/
def heldState : AppState :=
  ⟨[("c", dLoggedIn)], [], [("c", some 0)], [], [], 1⟩

/-- `heldState` after `before_request` ran to completion: only the timer
was added; the semaphore is still held. -/
def heldStatePost : AppState :=
  ⟨[("c", dLoggedIn)], [("c", some ⟨2, true⟩)], [("c", some 0)], [], [], 1⟩

/-- A semaphore entry for `c` that exists but is not currently held. -/
def freeState : AppState := ⟨[], [], [("c", some 1)], [], [], 0⟩

/-- `freeState` after a defensive release: the counter is 2. -/
def freeStateRel : AppState := ⟨[], [], [("c", some 2)], [], [], 0⟩

/-- Client `c` registered with a handle reporting `Unknown`. -/
def unknownState : AppState := ⟨[("c", dUnknown)], [], [], ["c"], [], 1⟩

/-- `unknownState` after `before_request`: the dead handle is still the
registry entry and nothing was constructed. -/
def unknownStatePost : AppState :=
  ⟨[("c", dUnknown)], [("c", some ⟨2, true⟩)], [("c", some 0)], ["c"], [], 1⟩

/-- Client `c` registered with a handle whose `quit()` raises. -/
def quitFailState : AppState :=
  ⟨[("c", dQuitFails)], [("c", some ⟨2, true⟩)], [("c", some 1)], ["c"], [], 1⟩

/-- No registry entry for `c`, but its cache directory exists. -/
def noEntryState : AppState := ⟨[], [], [], ["c"], [], 0⟩

/-- Client `c` registered, not logged in, with live timer and semaphore. -/
def killedState : AppState :=
  ⟨[("c", dNotLoggedIn)], [("c", some ⟨2, true⟩)], [("c", some 1)], [], [], 2⟩

/-- `killedState` after `kill_clients` removed `c`: the timer and
semaphore entries are present but set to `None`. -/
def killedStatePost : AppState := ⟨[], [("c", none)], [("c", none)], [], [1], 2⟩

/-! ### Association-list lemmas -/

theorem lookupA_insertA_self {V : Type} (l : List (String × V)) (k : String) (v : V) :
    lookupA (insertA l k v) k = some v := by
  induction l with
  | nil => simp [insertA, lookupA]
  | cons p rest ih =>
    obtain ⟨pk, pv⟩ := p
    by_cases hp : pk = k
    · simp [insertA, hp, lookupA]
    · simp [insertA, hp, lookupA, ih]

theorem lookupA_insertA_ne {V : Type} (l : List (String × V)) (k k' : String) (v : V)
    (h : k ≠ k') : lookupA (insertA l k v) k' = lookupA l k' := by
  induction l with
  | nil => simp [insertA, lookupA, h]
  | cons p rest ih =>
    obtain ⟨pk, pv⟩ := p
    by_cases hp : pk = k
    · subst hp
      simp [insertA, lookupA, h]
    · simp only [insertA, hp, if_false, lookupA]
      by_cases hp' : pk = k'
      · simp [hp']
      · simp [hp', ih]

theorem lookupA_eq_none {V : Type} (l : List (String × V)) (k : String)
    (h : k ∉ l.map Prod.fst) : lookupA l k = none := by
  induction l with
  | nil => rfl
  | cons p rest ih =>
    obtain ⟨pk, pv⟩ := p
    simp only [List.map_cons, List.mem_cons, not_or] at h
    have hne : pk ≠ k := fun e => h.1 e.symm
    simp [lookupA, hne, ih h.2]

theorem lookupA_eraseA_ne {V : Type} (l : List (String × V)) (k k' : String)
    (h : k ≠ k') : lookupA (eraseA l k) k' = lookupA l k' := by
  induction l with
  | nil => simp [eraseA]
  | cons p rest ih =>
    obtain ⟨pk, pv⟩ := p
    by_cases hp : pk = k
    · subst hp
      simp [eraseA, lookupA, h]
    · simp only [eraseA, hp, if_false, lookupA]
      by_cases hp' : pk = k'
      · simp [hp']
      · simp [hp', ih]

theorem eraseA_sublist {V : Type} (l : List (String × V)) (k : String) :
    (eraseA l k).Sublist l := by
  induction l with
  | nil => simp [eraseA]
  | cons p rest ih =>
    obtain ⟨pk, pv⟩ := p
    by_cases hp : pk = k
    · simp only [eraseA, hp, if_true]
      exact List.sublist_cons_self _ _
    · simp only [eraseA, hp, if_false]
      exact List.Sublist.cons₂ _ ih

theorem keys_eraseA_nodup {V : Type} (l : List (String × V)) (k : String)
    (h : (l.map Prod.fst).Nodup) : ((eraseA l k).map Prod.fst).Nodup :=
  List.Nodup.sublist (List.Sublist.map Prod.fst (eraseA_sublist l k)) h

theorem lookupA_eraseA_self {V : Type} (l : List (String × V)) (k : String)
    (h : (l.map Prod.fst).Nodup) : lookupA (eraseA l k) k = none := by
  induction l with
  | nil => rfl
  | cons p rest ih =>
    obtain ⟨pk, pv⟩ := p
    simp only [List.map_cons, List.nodup_cons] at h
    by_cases hp : pk = k
    · simp only [eraseA, hp, if_true]
      exact lookupA_eq_none rest k (hp ▸ h.1)
    · simp only [eraseA, hp, if_false, lookupA]
      simp [hp, ih h.2]

theorem exists_lookupA_of_mem_keys {V : Type} (l : List (String × V)) (k : String)
    (h : k ∈ l.map Prod.fst) : ∃ v, lookupA l k = some v := by
  induction l with
  | nil => simp at h
  | cons p rest ih =>
    obtain ⟨pk, pv⟩ := p
    by_cases hp : pk = k
    · exact ⟨pv, by simp [lookupA, hp]⟩
    · simp only [List.map_cons, List.mem_cons] at h
      rcases h with h | h
      · exact absurd h.symm hp
      · obtain ⟨v, hv⟩ := ih h
        exact ⟨v, by simp [lookupA, hp, hv]⟩

theorem mem_keys_of_lookupA {V : Type} (l : List (String × V)) (k : String) (v : V)
    (h : lookupA l k = some v) : k ∈ l.map Prod.fst := by
  induction l with
  | nil => simp [lookupA] at h
  | cons p rest ih =>
    obtain ⟨pk, pv⟩ := p
    by_cases hp : pk = k
    · simp [hp]
    · simp only [lookupA, hp, if_false] at h
      simp [ih h]

theorem mem_of_lookupA {V : Type} (l : List (String × V)) (k : String) (v : V)
    (h : lookupA l k = some v) : (k, v) ∈ l := by
  induction l with
  | nil => simp [lookupA] at h
  | cons p rest ih =>
    obtain ⟨pk, pv⟩ := p
    by_cases hp : pk = k
    · simp only [lookupA, hp, if_true, Option.some.injEq] at h
      subst hp
      subst h
      exact List.mem_cons_self _ _
    · simp only [lookupA, hp, if_false] at h
      exact List.mem_cons_of_mem _ (ih h)

theorem isLiveTimer_iff (x : Option (Option TimerObj)) :
    isLiveTimer x = true ↔ ∃ t, x = some (some t) := by
  cases x with
  | none => simp [isLiveTimer]
  | some y =>
    cases y with
    | none => simp [isLiveTimer]
    | some t => simp [isLiveTimer]

/-! ### Characterisation of the kill sweep -/

theorem killCleanup_spec (c : String) (s : AppState) (t : TimerObj)
    (ht : lookupA s.timers c = some (some t)) :
    ∃ u : List (String × Option Nat),
      killCleanup c s = { s with timers := insertA s.timers c none, semaphores := u }
      ∧ lookupA u c = some none
      ∧ ∀ c', c' ≠ c → lookupA u c' = lookupA s.semaphores c' := by
  by_cases hc : c = ""
  · refine ⟨insertA s.semaphores c none, ?_, lookupA_insertA_self _ _ _,
      fun c' h => lookupA_insertA_ne _ _ _ _ (Ne.symm h)⟩
    subst hc
    simp [killCleanup, ht, release_semaphore]
  · cases hsem : lookupA s.semaphores c with
    | none =>
      refine ⟨insertA s.semaphores c none, ?_, lookupA_insertA_self _ _ _,
        fun c' h => lookupA_insertA_ne _ _ _ _ (Ne.symm h)⟩
      simp [killCleanup, ht, release_semaphore, hc, hsem]
    | some o =>
      cases o with
      | none =>
        refine ⟨s.semaphores, ?_, hsem, fun c' _ => rfl⟩
        simp [killCleanup, ht, release_semaphore, hc, hsem]
      | some n =>
        refine ⟨insertA (insertA s.semaphores c (some (n + 1))) c none, ?_,
          lookupA_insertA_self _ _ _, ?_⟩
        · simp [killCleanup, ht, release_semaphore, hc, hsem]
        · intro c' h
          rw [lookupA_insertA_ne _ _ _ _ (Ne.symm h), lookupA_insertA_ne _ _ _ _ (Ne.symm h)]

theorem killOne_kept (clients : List String) (c : String) (s : AppState) (d : Driver)
    (hd : lookupA s.drivers c = some d) (hl : is_logged_in d = true)
    (hcl : c ∉ clients) :
    killOne clients true c s = .ok s := by
  simp [killOne, hd, hl, hcl]

theorem killOne_killed (clients : List String) (c : String) (s : AppState)
    (d : Driver) (t : TimerObj)
    (hd : lookupA s.drivers c = some d) (hl : is_logged_in d = false)
    (hq : d.quitRaises = false) (ht : lookupA s.timers c = some (some t)) :
    ∃ u, killOne clients true c s =
      .ok { s with drivers := eraseA s.drivers c,
                   quitted := s.quitted ++ [d.uid],
                   timers := insertA s.timers c none,
                   semaphores := u }
      ∧ lookupA u c = some none
      ∧ ∀ c', c' ≠ c → lookupA u c' = lookupA s.semaphores c' := by
  have h1 : killOne clients true c s =
      .ok (killCleanup c { s with drivers := eraseA s.drivers c,
                                  quitted := s.quitted ++ [d.uid] }) := by
    simp [killOne, hd, hl, hq]
  obtain ⟨u, hu, hus, huf⟩ :=
    killCleanup_spec c
      { s with drivers := eraseA s.drivers c, quitted := s.quitted ++ [d.uid] } t ht
  refine ⟨u, ?_, hus, huf⟩
  rw [h1, hu]

theorem killLoop_spec (clients : List String) (K : List String) :
    ∀ (s : AppState),
    K.Nodup →
    (s.drivers.map Prod.fst).Nodup →
    (∀ c ∈ K, c ∉ clients) →
    (∀ c ∈ K, ∃ d, lookupA s.drivers c = some d ∧ d.quitRaises = false ∧
        (is_logged_in d = false → ∃ t, lookupA s.timers c = some (some t))) →
    ∃ s' q, killLoop clients true K s = .ok s'
      ∧ s'.quitted = s.quitted ++ q
      ∧ (∀ c, c ∉ K →
           lookupA s'.drivers c = lookupA s.drivers c
           ∧ lookupA s'.timers c = lookupA s.timers c
           ∧ lookupA s'.semaphores c = lookupA s.semaphores c)
      ∧ (∀ c ∈ K, ∀ d, lookupA s.drivers c = some d →
           (is_logged_in d = true →
              lookupA s'.drivers c = some d
              ∧ lookupA s'.timers c = lookupA s.timers c
              ∧ lookupA s'.semaphores c = lookupA s.semaphores c)
           ∧ (is_logged_in d = false →
              lookupA s'.drivers c = none
              ∧ lookupA s'.timers c = some none
              ∧ lookupA s'.semaphores c = some none
              ∧ d.uid ∈ s'.quitted)) := by
  induction K with
  | nil =>
    intro s _ _ _ _
    exact ⟨s, [], rfl, (List.append_nil _).symm,
      fun c _ => ⟨rfl, rfl, rfl⟩, fun c hc => absurd hc (List.not_mem_nil c)⟩
  | cons c rest ih =>
    intro s hK hnd hcl hpkg
    have hKr : rest.Nodup := (List.nodup_cons.mp hK).2
    have hcK : c ∉ rest := (List.nodup_cons.mp hK).1
    obtain ⟨d, hd, hq, htd⟩ := hpkg c (List.mem_cons_self _ _)
    cases hl : is_logged_in d with
    | true =>
      have h1 := killOne_kept clients c s d hd hl (hcl c (List.mem_cons_self _ _))
      obtain ⟨s', q, hloop, hquit, hframe, hmain⟩ :=
        ih s hKr hnd (fun c' h => hcl c' (List.mem_cons_of_mem _ h))
          (fun c' h => hpkg c' (List.mem_cons_of_mem _ h))
      refine ⟨s', q, ?_, hquit, ?_, ?_⟩
      · simp [killLoop, h1, hloop]
      · intro c0 h0
        exact hframe c0 (fun h => h0 (List.mem_cons_of_mem _ h))
      · intro c0 h0 d0 hd0
        rcases List.mem_cons.mp h0 with h0c | h0r
        · subst h0c
          have hdd : d = d0 := Option.some.inj (hd.symm.trans hd0)
          subst hdd
          obtain ⟨e1, e2, e3⟩ := hframe c0 hcK
          constructor
          · intro _
            exact ⟨e1.trans hd, e2, e3⟩
          · intro hfalse
            rw [hl] at hfalse
            exact Bool.noConfusion hfalse
        · exact hmain c0 h0r d0 hd0
    | false =>
      obtain ⟨t, ht⟩ := htd hl
      obtain ⟨u, h1, hus, huf⟩ := killOne_killed clients c s d t hd hl hq ht
      set s2 : AppState :=
        { s with drivers := eraseA s.drivers c,
                 quitted := s.quitted ++ [d.uid],
                 timers := insertA s.timers c none,
                 semaphores := u } with hs2
      have f_dr_self : lookupA s2.drivers c = none := lookupA_eraseA_self _ _ hnd
      have f_dr_ne : ∀ c', c' ≠ c → lookupA s2.drivers c' = lookupA s.drivers c' :=
        fun c' h => lookupA_eraseA_ne _ _ _ (Ne.symm h)
      have f_tm_self : lookupA s2.timers c = some none := lookupA_insertA_self _ _ _
      have f_tm_ne : ∀ c', c' ≠ c → lookupA s2.timers c' = lookupA s.timers c' :=
        fun c' h => lookupA_insertA_ne _ _ _ _ (Ne.symm h)
      have f_sm_self : lookupA s2.semaphores c = some none := hus
      have f_sm_ne : ∀ c', c' ≠ c → lookupA s2.semaphores c' = lookupA s.semaphores c' :=
        fun c' h => huf c' h
      have hnd2 : (s2.drivers.map Prod.fst).Nodup := keys_eraseA_nodup _ _ hnd
      have hne_of_mem : ∀ c', c' ∈ rest → c' ≠ c :=
        fun c' h e => hcK (e ▸ h)
      obtain ⟨s', q', hloop, hquit, hframe, hmain⟩ :=
        ih s2 hKr hnd2 (fun c' h => hcl c' (List.mem_cons_of_mem _ h))
          (by
            intro c' h
            obtain ⟨d', hd', hq', htd'⟩ := hpkg c' (List.mem_cons_of_mem _ h)
            refine ⟨d', ?_, hq', ?_⟩
            · rw [f_dr_ne c' (hne_of_mem c' h)]
              exact hd'
            · intro hdead
              obtain ⟨t', ht'⟩ := htd' hdead
              exact ⟨t', by rw [f_tm_ne c' (hne_of_mem c' h)]; exact ht'⟩)
      refine ⟨s', [d.uid] ++ q', ?_, ?_, ?_, ?_⟩
      · simp [killLoop, h1]
        exact hloop
      · rw [hquit]
        show s2.quitted ++ q' = s.quitted ++ ([d.uid] ++ q')
        rw [hs2]
        simp [List.append_assoc]
      · intro c0 h0
        have h0r : c0 ∉ rest := fun h => h0 (List.mem_cons_of_mem _ h)
        have h0c : c0 ≠ c := fun e => h0 (e ▸ List.mem_cons_self c rest)
        obtain ⟨e1, e2, e3⟩ := hframe c0 h0r
        exact ⟨e1.trans (f_dr_ne c0 h0c), e2.trans (f_tm_ne c0 h0c),
          e3.trans (f_sm_ne c0 h0c)⟩
      · intro c0 h0 d0 hd0
        rcases List.mem_cons.mp h0 with h0c | h0r
        · subst h0c
          have hdd : d = d0 := Option.some.inj (hd.symm.trans hd0)
          subst hdd
          obtain ⟨e1, e2, e3⟩ := hframe c0 hcK
          constructor
          · intro htrue
            rw [hl] at htrue
            exact Bool.noConfusion htrue
          · intro _
            refine ⟨e1.trans f_dr_self, e2.trans f_tm_self, e3.trans f_sm_self, ?_⟩
            rw [hquit, hs2]
            simp
        · have hd0' : lookupA s2.drivers c0 = some d0 := by
            rw [f_dr_ne c0 (hne_of_mem c0 h0r)]
            exact hd0
          have hm := hmain c0 h0r d0 hd0'
          constructor
          · intro htrue
            obtain ⟨e1, e2, e3⟩ := hm.1 htrue
            exact ⟨e1, e2.trans (f_tm_ne c0 (hne_of_mem c0 h0r)),
              e3.trans (f_sm_ne c0 (hne_of_mem c0 h0r))⟩
          · exact hm.2

/-! ### Small helper lemmas -/

theorem init_timer_semaphores (cid : String) (s : AppState) :
    (init_timer cid s).semaphores = s.semaphores := by
  unfold init_timer
  cases h : lookupA s.timers cid with
  | none => rfl
  | some o => cases o with
    | none => rfl
    | some t => rfl

theorem init_client_lookup_self (s : AppState) (cid : String)
    (st : WhatsAPIDriverStatus) :
    lookupA (init_client cid st s).2.drivers cid = some (init_client cid st s).1 := by
  cases h : lookupA s.drivers cid with
  | some d => simp [init_client, h]
  | none =>
    simp only [init_client, h, init_driver]
    exact lookupA_insertA_self _ _ _

theorem init_client_of_present (s : AppState) (cid : String)
    (st : WhatsAPIDriverStatus) (d : Driver)
    (h : lookupA s.drivers cid = some d) :
    init_client cid st s = (d, s) := by
  simp [init_client, h]

/-! ### Claim theorems -/

/-- Claim C7: `init_client` (the registry `ensure`) is idempotent — the
first call stores the handle it returns, the second call returns that very
stored handle and leaves the state unchanged, and across the two calls at
most one construction happens (`nextUid` grows by at most one and does not
grow at the second call). -/
theorem init_client_idempotent (s : AppState) (cid : String)
    (st1 st2 : WhatsAPIDriverStatus) :
    lookupA (init_client cid st1 s).2.drivers cid = some (init_client cid st1 s).1
    ∧ (init_client cid st2 (init_client cid st1 s).2).1 = (init_client cid st1 s).1
    ∧ (init_client cid st2 (init_client cid st1 s).2).2 = (init_client cid st1 s).2
    ∧ (init_client cid st1 s).2.nextUid ≤ s.nextUid + 1
    ∧ (init_client cid st2 (init_client cid st1 s).2).2.nextUid
        = (init_client cid st1 s).2.nextUid := by
  have hl := init_client_lookup_self s cid st1
  have h2 := init_client_of_present (init_client cid st1 s).2 cid st2
    (init_client cid st1 s).1 hl
  refine ⟨hl, ?_, ?_, ?_, ?_⟩
  · rw [h2]
  · rw [h2]
  · cases h : lookupA s.drivers cid with
    | some d =>
      rw [init_client_of_present s cid st1 d h]
      exact Nat.le_succ _
    | none =>
      simp only [init_client, h, init_driver]
      split <;> simp
  · rw [h2]

/-- Claim C10: a falsy (absent or empty) client id makes `acquire_semaphore`
return `False` and `release_semaphore` return `False`, both without touching
the lock table; consequently an admin request carrying no client id passes
through `before_request` and `after_request` with the state completely
unchanged — no lock is ever taken or released. -/
theorem falsy_client_id_locks_untouched (s : AppState) (api auth : Option String)
    (fresh : WhatsAPIDriverStatus) (cancel : Bool) :
    acquire_semaphore none cancel s = .ok (false, s)
    ∧ acquire_semaphore (some "") cancel s = .ok (false, s)
    ∧ release_semaphore none s = .ok (some false, s)
    ∧ release_semaphore (some "") s = .ok (some false, s)
    ∧ before_request api auth none "admin" fresh s =
        .ok ((if apiKeyCheckFails api auth then GateOutcome.abort 401
              else GateOutcome.proceed none none), s)
    ∧ after_request none s = .ok s
    ∧ after_request (some "") s = .ok s := by
  refine ⟨rfl, rfl, rfl, rfl, ?_, rfl, rfl⟩
  by_cases h : apiKeyCheckFails api auth
  · simp [before_request, h]
  · simp [before_request, h, acquire_semaphore, pyTruthy]

/-- Claim C1 (code bug): for a client whose registered handle reports
`Unknown`, the "self-healing" branch of `before_request` does NOT replace
the registry entry with a newly constructed handle — `init_client` finds
the existing entry and returns it unchanged (`nextUid` stays 1, the entry
is still `dUnknown`) — and the extra status query runs on the same old
handle, so the reported status stays `Unknown` even though a genuinely
fresh handle would have reported `LoggedIn` (the oracle passed here). -/
theorem before_request_self_heal_keeps_dead_handle :
    before_request none none (some "c") "chats" WhatsAPIDriverStatus.LoggedIn unknownState
      = .ok (.proceed (some dUnknown) (some WhatsAPIDriverStatus.Unknown), unknownStatePost)
    ∧ lookupA unknownStatePost.drivers "c" = some dUnknown
    ∧ unknownStatePost.nextUid = unknownState.nextUid := ⟨rfl, rfl, rfl⟩

/-- Claim C2 (code bug): after one successful firing of the poll callback
for client `c` (which acquires the semaphore once but releases it twice),
the semaphore counter stands at 2, so two back-to-back foreground
acquisitions with no intervening release both succeed — two execution
units can then hold the lock and issue commands against `c`'s handle
concurrently, contradicting the at-most-one-holder guarantee. -/
theorem poll_cycle_breaks_mutual_exclusion :
    (check_new_messages "c" pollState).map (fun s1 => lookupA s1.semaphores "c")
      = .ok (some (some 2))
    ∧ (check_new_messages "c" pollState).bind (fun s1 => twoAcquires "c" s1)
      = .ok (true, true) := ⟨rfl, rfl⟩

/-- Claim C9 (code bug): `kill_clients` sets the killed client's semaphore
entry to `None` instead of deleting the key, so the next lock acquisition
for that client does not recreate the lock — it finds the `None` entry and
raises (`None.acquire`), instead of safely succeeding. -/
theorem acquire_after_kill_raises :
    kill_clients (some "c") none killedState = .ok killedStatePost
    ∧ lookupA killedStatePost.semaphores "c" = some none
    ∧ acquire_semaphore (some "c") false killedStatePost
        = .error "AttributeError: NoneType has no attribute acquire" := ⟨rfl, rfl, rfl⟩

/-- Counterexample to C3 as stated: one successful firing of the poll
callback from a state whose semaphore counter is 1 takes the counter
through 0 (the acquire) to 2 — the lock is released twice on the success
path, not exactly once (which would leave the counter at 1). -/
theorem check_new_messages_releases_twice :
    check_new_messages "c" pollState = .ok pollStatePost
    ∧ lookupA pollStatePost.semaphores "c" = some (some 2)
    ∧ lookupA pollStatePost.semaphores "c" ≠ some (some 1) := ⟨rfl, rfl, by decide⟩

/-- Claim C3 (amended): on every firing of the poll callback that passes
the pre-check and acquires the lock, the lock is released at least once by
return time — exactly once on the error path (fetch or mark-seen raising),
but twice on the success path (once in the body, once in the `finally`
block), leaving the semaphore counter at 2 instead of 1. -/
theorem check_new_messages_release_count (s : AppState) (cid : String) (d : Driver)
    (hc : cid ≠ "") (hd : lookupA s.drivers cid = some d)
    (hl : is_logged_in d = true)
    (hs : lookupA s.semaphores cid = some (some 1)) :
    ∃ s', check_new_messages cid s = .ok s'
      ∧ lookupA s'.semaphores cid =
          some (some (if d.getUnreadRaises || d.unread.any (fun g => g.sendSeenRaises)
                      then 1 else 2)) := by
  cases hg : d.getUnreadRaises with
  | true =>
    refine ⟨{ s with semaphores := insertA (insertA s.semaphores cid (some 0)) cid (some 1) }, ?_, ?_⟩
    · simp [check_new_messages, hd, hl, hc, hs, hg, acquire_semaphore,
        release_semaphore, lookupA_insertA_self]
    · simp [hg, lookupA_insertA_self]
  | false =>
    cases ha : d.unread.any (fun g => g.sendSeenRaises) with
    | true =>
      refine ⟨{ s with semaphores := insertA (insertA s.semaphores cid (some 0)) cid (some 1) }, ?_, ?_⟩
      · simp [check_new_messages, hd, hl, hc, hs, hg, ha, acquire_semaphore,
          release_semaphore, lookupA_insertA_self]
      · simp [hg, ha, lookupA_insertA_self]
    | false =>
      refine ⟨{ s with semaphores := insertA (insertA (insertA s.semaphores cid (some 0)) cid (some 1)) cid (some 2) }, ?_, ?_⟩
      · simp [check_new_messages, hd, hl, hc, hs, hg, ha, acquire_semaphore,
          release_semaphore, lookupA_insertA_self]
      · simp [hg, ha, lookupA_insertA_self]

/-- Witness for C3's amended theorem, at `pollState` (the success path:
the counter ends at 2). -/
theorem check_new_messages_release_count_witness :
    ("c" ≠ "" ∧ lookupA pollState.drivers "c" = some dLoggedIn
      ∧ is_logged_in dLoggedIn = true
      ∧ lookupA pollState.semaphores "c" = some (some 1))
    ∧ ∃ s', check_new_messages "c" pollState = .ok s'
        ∧ lookupA s'.semaphores "c" =
            some (some (if dLoggedIn.getUnreadRaises
                        || dLoggedIn.unread.any (fun g => g.sendSeenRaises)
                        then 1 else 2)) :=
  ⟨⟨by decide, rfl, rfl, rfl⟩,
    check_new_messages_release_count pollState "c" dLoggedIn (by decide) rfl rfl rfl⟩

/-- Counterexample to C4 as stated: a defensive release on an existing but
not-currently-held lock entry (counter 1) is not a no-op — it changes the
lock state (counter 2), after which two concurrent acquisitions with no
intervening release both succeed, so neither is excluded. -/
theorem release_unheld_changes_lock_state :
    release_semaphore (some "c") freeState = .ok (none, freeStateRel)
    ∧ freeStateRel ≠ freeState
    ∧ twoAcquires "c" freeStateRel = .ok (true, true) := ⟨rfl, by decide, rfl⟩

/-- Claim C4 (amended): releasing an absent lock entry is a no-op, and
releasing an existing, not-currently-held entry does not raise — but it
increments the semaphore counter rather than leaving the state unchanged,
after which a subsequent pair of concurrent acquires BOTH succeed. -/
theorem release_semaphore_unheld_increments (s : AppState) (cid : String)
    (hc : cid ≠ "") (hs : lookupA s.semaphores cid = some (some 1)) :
    (∃ s1 s2 s3,
      release_semaphore (some cid) s = .ok (none, s1)
      ∧ lookupA s1.semaphores cid = some (some 2)
      ∧ acquire_semaphore (some cid) false s1 = .ok (true, s2)
      ∧ acquire_semaphore (some cid) false s2 = .ok (true, s3))
    ∧ (∀ c', c' ≠ "" → lookupA s.semaphores c' = none →
        release_semaphore (some c') s = .ok (none, s)) := by
  constructor
  · refine ⟨{ s with semaphores := insertA s.semaphores cid (some 2) },
      { s with semaphores := insertA (insertA s.semaphores cid (some 2)) cid (some 1) },
      { s with semaphores := insertA (insertA (insertA s.semaphores cid (some 2)) cid (some 1)) cid (some 0) },
      ?_, lookupA_insertA_self _ _ _, ?_, ?_⟩
    · simp [release_semaphore, hc, hs]
    · simp [acquire_semaphore, hc, lookupA_insertA_self]
    · simp [acquire_semaphore, hc, lookupA_insertA_self]
  · intro c' hc' hn
    simp [release_semaphore, hc', hn]

/-- Witness for C4's amended theorem, at `freeState`. -/
theorem release_semaphore_unheld_increments_witness :
    ("c" ≠ "" ∧ lookupA freeState.semaphores "c" = some (some 1))
    ∧ ((∃ s1 s2 s3,
        release_semaphore (some "c") freeState = .ok (none, s1)
        ∧ lookupA s1.semaphores "c" = some (some 2)
        ∧ acquire_semaphore (some "c") false s1 = .ok (true, s2)
        ∧ acquire_semaphore (some "c") false s2 = .ok (true, s3))
      ∧ (∀ c', c' ≠ "" → lookupA freeState.semaphores c' = none →
          release_semaphore (some c') freeState = .ok (none, freeState))) :=
  ⟨⟨by decide, rfl⟩, release_semaphore_unheld_increments freeState "c" (by decide) rfl⟩

/-- Counterexample to C5 as stated: with client `c`'s lock held elsewhere
(counter 0), `before_request` does not produce any busy outcome — it
proceeds to the handler (with the lock still unavailable), so "the handler
does not run" is false. -/
theorem before_request_runs_handler_despite_busy_lock :
    before_request none none (some "c") "chats" WhatsAPIDriverStatus.LoggedIn heldState
      = .ok (.proceed (some dLoggedIn) (some WhatsAPIDriverStatus.LoggedIn), heldStatePost)
    ∧ lookupA heldStatePost.semaphores "c" = some (some 0) := ⟨rfl, rfl⟩

/-- Claim C5 (amended): when foreground lock acquisition does not succeed
(counter 0 at the bounded wait's expiry), `before_request` discards the
boolean result: no busy outcome is produced, the handler runs anyway, and
the client's semaphore is left untouched at 0 — the timeout is silently
ignored. -/
theorem before_request_ignores_lock_timeout (s : AppState) (api auth : Option String)
    (cid rule : String) (fresh : WhatsAPIDriverStatus) (d : Driver)
    (hapi : apiKeyCheckFails api auth = false)
    (hc : cid ≠ "") (hr : rule ≠ "admin")
    (hd : lookupA s.drivers cid = some d)
    (hs : lookupA s.semaphores cid = some (some 0)) :
    ∃ s', before_request api auth (some cid) rule fresh s
        = .ok (.proceed (some d) (some (get_status d)), s')
      ∧ lookupA s'.semaphores cid = some (some 0) := by
  have hacq : acquire_semaphore (some cid) false s = .ok (false, s) := by
    simp [acquire_semaphore, hc, hs]
  by_cases hst : (decide (get_status d = WhatsAPIDriverStatus.NotLoggedIn) ||
      decide (get_status d = WhatsAPIDriverStatus.LoggedIn)) = true
  · refine ⟨init_timer cid s, ?_, ?_⟩
    · simp [before_request, hapi, pyTruthy, hc, hr, hacq, hd, hst]
    · rw [init_timer_semaphores]
      exact hs
  · refine ⟨init_timer cid { s with drivers := insertA s.drivers cid d }, ?_, ?_⟩
    · simp [before_request, hapi, pyTruthy, hc, hr, hacq, hd, hst,
        init_client_of_present s cid fresh d hd]
    · rw [init_timer_semaphores]
      exact hs

/-- Witness for C5's amended theorem, at `heldState`. -/
theorem before_request_ignores_lock_timeout_witness :
    (apiKeyCheckFails none none = false ∧ "c" ≠ "" ∧ "chats" ≠ "admin"
      ∧ lookupA heldState.drivers "c" = some dLoggedIn
      ∧ lookupA heldState.semaphores "c" = some (some 0))
    ∧ ∃ s', before_request none none (some "c") "chats"
        WhatsAPIDriverStatus.LoggedIn heldState
        = .ok (.proceed (some dLoggedIn) (some (get_status dLoggedIn)), s')
      ∧ lookupA s'.semaphores "c" = some (some 0) :=
  ⟨⟨rfl, by decide, by decide, rfl, rfl⟩,
    before_request_ignores_lock_timeout heldState none none "c" "chats"
      WhatsAPIDriverStatus.LoggedIn dLoggedIn rfl (by decide) (by decide) rfl rfl⟩

/-- Claim C6: `kill_clients` with `kill_dead` set and the empty explicit
id set (the empty form string, which the source parses as `[""]`) removes
exactly the registered clients that are not logged in — popping the
registry entry, discarding the timer entry (set to `None`), clearing the
lock entry (set to `None`) and invoking `quit()` on the popped handle —
while every logged-in client's registry, timer and lock entries are left
untouched and no new entries appear.  Well-formedness hypotheses: client
ids are distinct and non-empty, every registered client has a live timer,
and no handle's `quit()` raises. -/
theorem kill_dead_sweep_removes_exactly_unauthenticated (s : AppState)
    (hnd : (s.drivers.map Prod.fst).Nodup)
    (hw : ∀ p ∈ s.drivers, p.1 ≠ "" ∧ p.2.quitRaises = false ∧
      isLiveTimer (lookupA s.timers p.1) = true) :
    ∃ s', kill_clients (some "") (some "true") s = .ok s'
      ∧ (∀ c d, lookupA s.drivers c = some d → is_logged_in d = true →
           lookupA s'.drivers c = some d
           ∧ lookupA s'.timers c = lookupA s.timers c
           ∧ lookupA s'.semaphores c = lookupA s.semaphores c)
      ∧ (∀ c d, lookupA s.drivers c = some d → is_logged_in d = false →
           lookupA s'.drivers c = none
           ∧ lookupA s'.timers c = some none
           ∧ lookupA s'.semaphores c = some none
           ∧ d.uid ∈ s'.quitted)
      ∧ (∀ c, lookupA s.drivers c = none → lookupA s'.drivers c = none) := by
  have hkc : kill_clients (some "") (some "true") s
      = killLoop [""] true (s.drivers.map Prod.fst) s := rfl
  have hmem : ∀ c ∈ s.drivers.map Prod.fst, ∃ d, lookupA s.drivers c = some d :=
    fun c h => exists_lookupA_of_mem_keys _ _ h
  have hcl : ∀ c ∈ s.drivers.map Prod.fst, c ∉ ([""] : List String) := by
    intro c h hmem1
    obtain ⟨d, hd⟩ := hmem c h
    have hp := hw (c, d) (mem_of_lookupA _ _ _ hd)
    have hce : c = "" := by simpa using hmem1
    exact hp.1 hce
  have hpkg : ∀ c ∈ s.drivers.map Prod.fst, ∃ d, lookupA s.drivers c = some d
      ∧ d.quitRaises = false
      ∧ (is_logged_in d = false → ∃ t, lookupA s.timers c = some (some t)) := by
    intro c h
    obtain ⟨d, hd⟩ := hmem c h
    have hp := hw (c, d) (mem_of_lookupA _ _ _ hd)
    exact ⟨d, hd, hp.2.1, fun _ => (isLiveTimer_iff _).mp hp.2.2⟩
  obtain ⟨s', q, hloop, _hquit, hframe, hmain⟩ :=
    killLoop_spec [""] (s.drivers.map Prod.fst) s hnd hnd hcl hpkg
  refine ⟨s', ?_, ?_, ?_, ?_⟩
  · rw [hkc]
    exact hloop
  · intro c d hd hl
    exact (hmain c (mem_keys_of_lookupA _ _ _ hd) d hd).1 hl
  · intro c d hd hl
    exact (hmain c (mem_keys_of_lookupA _ _ _ hd) d hd).2 hl
  · intro c hc
    have hnk : c ∉ s.drivers.map Prod.fst := by
      intro hmem1
      obtain ⟨d, hd⟩ := hmem c hmem1
      rw [hc] at hd
      exact Option.noConfusion hd
    exact (hframe c hnk).1.trans hc

/-- Witness for C6: clients `A` (logged in) and `B` (not logged in) —
the sweep removes exactly `B`. -/
theorem kill_dead_sweep_removes_exactly_unauthenticated_witness :
    ((stateAB.drivers.map Prod.fst).Nodup
      ∧ ∀ p ∈ stateAB.drivers, p.1 ≠ "" ∧ p.2.quitRaises = false ∧
          isLiveTimer (lookupA stateAB.timers p.1) = true)
    ∧ ∃ s', kill_clients (some "") (some "true") stateAB = .ok s'
      ∧ (∀ c d, lookupA stateAB.drivers c = some d → is_logged_in d = true →
           lookupA s'.drivers c = some d
           ∧ lookupA s'.timers c = lookupA stateAB.timers c
           ∧ lookupA s'.semaphores c = lookupA stateAB.semaphores c)
      ∧ (∀ c d, lookupA stateAB.drivers c = some d → is_logged_in d = false →
           lookupA s'.drivers c = none
           ∧ lookupA s'.timers c = some none
           ∧ lookupA s'.semaphores c = some none
           ∧ d.uid ∈ s'.quitted)
      ∧ (∀ c, lookupA stateAB.drivers c = none → lookupA s'.drivers c = none) :=
  ⟨⟨by decide, by decide⟩,
    kill_dead_sweep_removes_exactly_unauthenticated stateAB (by decide) (by decide)⟩

/-- Counterexample to C8 as stated: (i) with a registered handle whose
`quit()` raises, `delete_client` propagates the failure to the caller
(`quit` is invoked outside the `try` block); (ii) with no registry entry
and `preserve_cache` unset, `delete_client` is not a no-op — it still
deletes the cache directory. -/
theorem delete_client_quit_propagates :
    delete_client "c" "c" true quitFailState = .error "WebDriverException"
    ∧ delete_client "c" "c" false noEntryState = .ok (⟨[], [], [], [], [], 0⟩ : AppState)
    ∧ (⟨[], [], [], [], [], 0⟩ : AppState) ≠ noEntryState := ⟨rfl, rfl, by decide⟩

/-- Claim C8 (amended): with no registry entry, `delete_client` skips the
driver/timer/lock cleanup, but it is a no-op only when `preserve_cache` is
set — otherwise it still attempts the cache-directory deletion, removing
the directory when it exists (so the call is not a no-op) and propagating
`FileNotFoundError` when it does not; a failure of the removed handle's
`quit()` likewise propagates (shown by the counterexample). -/
theorem delete_client_missing_entry (s : AppState) (cid g : String)
    (hd : lookupA s.drivers cid = none) :
    delete_client cid g true s = .ok s
    ∧ (s.dirs.contains g = true →
        delete_client cid g false s = .ok { s with dirs := s.dirs.erase g }
        ∧ { s with dirs := s.dirs.erase g } ≠ s)
    ∧ (s.dirs.contains g = false →
        delete_client cid g false s = .error "FileNotFoundError") := by
  refine ⟨?_, ?_, ?_⟩
  · simp [delete_client, hd]
  · intro hcont
    have hmem : g ∈ s.dirs := by simpa using hcont
    constructor
    · simp [delete_client, hd, hmem]
    · intro he
      have hdirs : s.dirs.erase g = s.dirs := congrArg AppState.dirs he
      have hlen := List.length_erase_of_mem hmem
      rw [hdirs] at hlen
      have hpos : 0 < s.dirs.length := List.length_pos_of_mem hmem
      omega
  · intro hcont
    have hnm : g ∉ s.dirs := by simpa using hcont
    simp [delete_client, hd, hnm]

/-- Witness for C8's amended theorem, at `noEntryState`. -/
theorem delete_client_missing_entry_witness :
    lookupA noEntryState.drivers "c" = none
    ∧ (delete_client "c" "c" true noEntryState = .ok noEntryState
      ∧ (noEntryState.dirs.contains "c" = true →
          delete_client "c" "c" false noEntryState
            = .ok { noEntryState with dirs := noEntryState.dirs.erase "c" }
          ∧ { noEntryState with dirs := noEntryState.dirs.erase "c" } ≠ noEntryState)
      ∧ (noEntryState.dirs.contains "c" = false →
          delete_client "c" "c" false noEntryState = .error "FileNotFoundError")) :=
  ⟨rfl, delete_client_missing_entry noEntryState "c" "c" rfl⟩
